import Mathlib

/-!
Yandex provider: service-account reconciler and MDB cluster resolvers.

A shallow embedding of

* `yandex/resource_yandex_iam_service_account.go` (the four verbs
  Create / Read / Update / Delete of the IAM service-account resource), and
* `vendor/github.com/yandex-cloud/go-sdk/sdkresolvers/mdb_resolvers.go`
  (the PostgreSQL, MongoDB and ClickHouse cluster resolvers).

The cloud API is an arbitrary family of functions from requests to outcomes
(every verb issues each RPC at most once, so this covers every behaviour of
the remote side).  Every verb returns the state store after the call, the
ordered log of the remote calls and commit marks it made, and the Go `error`
(`none` for `nil`).
-/

namespace Yandex

/-! ## Go errors -/

/-- A Go `error`: `code` is the gRPC status code when the error is a transport
status, and `none` for an error built by `fmt.Errorf`; `msg` is the text that
`err.Error()` renders. -/
structure Error where
  code : Option Nat
  msg : String
  deriving DecidableEq

/-- The gRPC status code `codes.NotFound`. -/
def codesNotFound : Nat := 5

/-- Status test used for not-found recovery: the error is a gRPC status with
the given code. -/
def isStatusWithCode (err : Error) (code : Nat) : Bool :=
  err.code == some code

/-- The call `fmt.Errorf(format, ..., err)` whose format ends in `%s` for the
error: a fresh error without a status code whose text is the rendered head
followed by the text of `err`. -/
def Errorf (head : String) (err : Error) : Error :=
  { code := none, msg := head ++ err.msg }

/-- The call `fmt.Errorf(text)` without arguments. -/
def ErrorfText (text : String) : Error :=
  { code := none, msg := text }

/-- The `%q` verb on a string: the text between double quotes, with embedded
double quotes and backslashes escaped (escapes of non-printable characters
are not rendered; the text is used in messages only). -/
def quote (s : String) : String :=
  "\"" ++ String.join (s.toList.map fun c =>
    if c = '"' ∨ c = '\\' then "\\" ++ c.toString else c.toString) ++ "\""

/-! ## The host's state store -/

/-- An attribute map, newest binding first. -/
abbrev Attrs := List (String × String)

/-- Modelled from the spec: the host's state store handed to every verb
(`*schema.ResourceData` of the host library, whose code is not among the
sources).  `id` is the stored identifier, `state` the mirror recorded by the
previous run, `diff` the declared values of this run, `setMap` the values
written by `d.Set` during this call; `partialMode` and `partialMap` are the
partial-commit mode and the attribute paths committed in it. -/
structure ResourceData where
  id : String
  state : Attrs
  diff : Attrs
  setMap : Attrs
  partialMode : Bool
  partialMap : List String
  deriving DecidableEq

namespace ResourceData

/-- The stored identifier, `d.Id()`. -/
def Id (d : ResourceData) : String := d.id

/-- The assignment `d.SetId(v)`. -/
def SetId (d : ResourceData) (v : String) : ResourceData :=
  { d with id := v }

/-- The mirrored (pre-call) value of attribute `k`; the zero value `""` when
absent. -/
def old (d : ResourceData) (k : String) : String :=
  (d.state.lookup k).getD ""

/-- The declared value of attribute `k`: the value of this run's declaration,
falling back to the mirror. -/
def declared (d : ResourceData) (k : String) : String :=
  match d.diff.lookup k with
  | some v => v
  | none => d.old k

/-- The read `d.Get(k).(string)`: what was written with `d.Set` in this call,
else the declared value. -/
def Get (d : ResourceData) (k : String) : String :=
  match d.setMap.lookup k with
  | some v => v
  | none => d.declared k

/-- The test `d.HasChange(k)`: the declared value differs from the mirrored
one. -/
def HasChange (d : ResourceData) (k : String) : Bool :=
  d.old k != d.declared k

/-- The write `d.Set(k, v)`. -/
def Set (d : ResourceData) (k v : String) : ResourceData :=
  { d with setMap := (k, v) :: d.setMap }

/-- The switch `d.Partial(enable)`: enters or leaves partial-commit mode; leaving
it drops the committed paths. -/
def Partial (d : ResourceData) (enable : Bool) : ResourceData :=
  { d with partialMode := enable, partialMap := if enable then d.partialMap else [] }

/-- The mark `d.SetPartial(k)`: in partial-commit mode, records `k` as
committed. -/
def SetPartial (d : ResourceData) (k : String) : ResourceData :=
  if d.partialMode then { d with partialMap := k :: d.partialMap } else d

/-- Modelled from the spec: the value of attribute `k` that the host retains
when the verb returns.  In partial-commit mode only committed paths are
durable, every other attribute keeps its pre-call (mirrored) form; outside
partial-commit mode the current value is retained. -/
def retained (d : ResourceData) (k : String) : String :=
  if d.partialMode && !(d.partialMap.contains k) then d.old k else d.Get k

end ResourceData

/-! ## Cloud API messages -/

/-- A protobuf timestamp. -/
structure Timestamp where
  seconds : Int
  nanos : Int
  deriving DecidableEq

/-- The remote object `iam.ServiceAccount`. -/
structure ServiceAccount where
  Id : String
  FolderId : String
  CreatedAt : Option Timestamp
  Name : String
  Description : String
  deriving DecidableEq

structure CreateServiceAccountRequest where
  FolderId : String
  Name : String
  Description : String
  deriving DecidableEq

structure GetServiceAccountRequest where
  ServiceAccountId : String
  deriving DecidableEq

structure FieldMask where
  Paths : List String
  deriving DecidableEq

structure UpdateServiceAccountRequest where
  ServiceAccountId : String
  UpdateMask : FieldMask
  Name : String
  Description : String
  deriving DecidableEq

structure DeleteServiceAccountRequest where
  ServiceAccountId : String
  deriving DecidableEq

/-- The payload returned by `op.Response()`: a service account, or any other
message. -/
inductive Response where
  | serviceAccount (sa : ServiceAccount)
  | other
  deriving DecidableEq

/-- A wrapped long-running operation: its identifier, the outcome of
`op.Wait(ctx)` and the outcome of `op.Response()`. -/
structure Operation where
  Id : String
  Wait : Option Error
  Response : Except Error Response

/-- The service-account client of the cloud facade,
`config.sdk.IAM().ServiceAccount()`. -/
structure SDK where
  Create : CreateServiceAccountRequest → Except Error Operation
  Get : GetServiceAccountRequest → Except Error ServiceAccount
  Update : UpdateServiceAccountRequest → Except Error Operation
  Delete : DeleteServiceAccountRequest → Except Error Operation

/-- The provider configuration passed as `meta`. -/
structure Config where
  FolderID : String
  sdk : SDK

/-- The call `config.sdk.WrapOperation(op, err)`: the error is passed through,
the operation is wrapped for awaiting. -/
def WrapOperation (r : Except Error Operation) : Except Error Operation := r

/-- A side effect of a verb, in program order: a remote call, the await of an
operation, or a commit mark on the state store. -/
inductive Event where
  | Create (req : CreateServiceAccountRequest)
  | Get (req : GetServiceAccountRequest)
  | Update (req : UpdateServiceAccountRequest)
  | Delete (req : DeleteServiceAccountRequest)
  | Wait (opId : String)
  | SetPartial (path : String)
  deriving DecidableEq

/-- What a verb leaves behind: the state store, the log of its side effects
and the returned `error`. -/
structure Outcome where
  d : ResourceData
  events : List Event
  err : Option Error
  deriving DecidableEq

/-! ## Helpers of the package that the resource file calls -/

/-- Modelled from the spec: `handleNotFoundError`, defined outside the
resource file.  On not-found it clears the stored id and reports success; any
other error is surfaced as it is. -/
def handleNotFoundError (err : Error) (d : ResourceData) (_resourceName : String) :
    ResourceData × Option Error :=
  if isStatusWithCode err codesNotFound then (d.SetId "", none) else (d, some err)

/-- Modelled from the spec: `getFolderID`, defined outside the resource file.
The declared `folder_id` is used when there is one, else the provider-level
default; when neither is set the resolution fails with a configuration
error. -/
def getFolderID (d : ResourceData) (config : Config) : Except Error String :=
  if d.Get "folder_id" ≠ "" then .ok (d.Get "folder_id")
  else if config.FolderID ≠ "" then .ok config.FolderID
  else .error (ErrorfText "cannot determine folder_id")

/-! ## The reconciler -/

/-- The verb `resourceYandexIAMServiceAccountRead`.  `getTimestamp` is the
package's timestamp renderer (defined outside the resource file). -/
def resourceYandexIAMServiceAccountRead
    (getTimestamp : Option Timestamp → Except Error String)
    (d : ResourceData) (config : Config) : Outcome :=
  let req : GetServiceAccountRequest := { ServiceAccountId := d.Id }
  match config.sdk.Get req with
  | .error err =>
    let r := handleNotFoundError err d ("Service Account " ++ quote (d.Get "name"))
    { d := r.1, events := [Event.Get req], err := r.2 }
  | .ok sa =>
    match getTimestamp sa.CreatedAt with
    | .error err => { d := d, events := [Event.Get req], err := some err }
    | .ok createdAt =>
      let d := d.Set "created_at" createdAt
      let d := d.Set "name" sa.Name
      let d := d.Set "folder_id" sa.FolderId
      let d := d.Set "description" sa.Description
      { d := d, events := [Event.Get req], err := none }

/-- The verb `resourceYandexIAMServiceAccountCreate`. -/
def resourceYandexIAMServiceAccountCreate
    (getTimestamp : Option Timestamp → Except Error String)
    (d : ResourceData) (config : Config) : Outcome :=
  match getFolderID d config with
  | .error err =>
    { d := d, events := [],
      err := some (Errorf "Error getting folder ID while creating service account: " err) }
  | .ok folderID =>
    let req : CreateServiceAccountRequest :=
      { FolderId := folderID, Name := d.Get "name", Description := d.Get "description" }
    match WrapOperation (config.sdk.Create req) with
    | .error err =>
      { d := d, events := [Event.Create req],
        err := some (Errorf "Error while requesting API to create service account: " err) }
    | .ok op =>
      match op.Wait with
      | some err =>
        { d := d, events := [Event.Create req, Event.Wait op.Id],
          err := some (Errorf "Error while waiting operation to create service account: " err) }
      | none =>
        match op.Response with
        | .error err =>
          { d := d, events := [Event.Create req, Event.Wait op.Id],
            err := some (Errorf "Service account creation failed: " err) }
        | .ok Response.other =>
          { d := d, events := [Event.Create req, Event.Wait op.Id],
            err := some (ErrorfText "Create response doesn't contain Service Account") }
        | .ok (Response.serviceAccount sa) =>
          let d := d.SetId sa.Id
          let r := resourceYandexIAMServiceAccountRead getTimestamp d config
          { r with events := [Event.Create req, Event.Wait op.Id] ++ r.events }

/-- The request assembled by `resourceYandexIAMServiceAccountUpdate` before
the RPC is issued: the id, and for each of `name`, `description` that the host
reports changed, the field and its path in the mask. -/
def updateRequest (d : ResourceData) : UpdateServiceAccountRequest :=
  let req : UpdateServiceAccountRequest :=
    { ServiceAccountId := d.Id, UpdateMask := { Paths := [] }, Name := "", Description := "" }
  let req :=
    if d.HasChange "name" then
      { req with Name := d.Get "name",
                 UpdateMask := { Paths := req.UpdateMask.Paths ++ ["name"] } }
    else req
  let req :=
    if d.HasChange "description" then
      { req with Description := d.Get "description",
                 UpdateMask := { Paths := req.UpdateMask.Paths ++ ["description"] } }
    else req
  req

/-- The verb `resourceYandexIAMServiceAccountUpdate`. -/
def resourceYandexIAMServiceAccountUpdate
    (getTimestamp : Option Timestamp → Except Error String)
    (d : ResourceData) (config : Config) : Outcome :=
  let d := d.Partial true
  let req := updateRequest d
  match WrapOperation (config.sdk.Update req) with
  | .error err =>
    { d := d, events := [Event.Update req],
      err := some (Errorf ("Error while requesting API to update Service Account "
        ++ quote d.Id ++ ": ") err) }
  | .ok op =>
    match op.Wait with
    | some err =>
      { d := d, events := [Event.Update req, Event.Wait op.Id],
        err := some (Errorf ("Error updating Service Account " ++ quote d.Id ++ ": ") err) }
    | none =>
      let d := req.UpdateMask.Paths.foldl (fun d v => d.SetPartial v) d
      let d := d.Partial false
      let r := resourceYandexIAMServiceAccountRead getTimestamp d config
      { r with events := [Event.Update req, Event.Wait op.Id]
          ++ req.UpdateMask.Paths.map Event.SetPartial ++ r.events }

/-- The verb `resourceYandexIAMServiceAccountDelete`. -/
def resourceYandexIAMServiceAccountDelete (d : ResourceData) (config : Config) : Outcome :=
  let req : DeleteServiceAccountRequest := { ServiceAccountId := d.Id }
  match WrapOperation (config.sdk.Delete req) with
  | .error err =>
    let r := handleNotFoundError err d ("Service Account " ++ quote (d.Get "name"))
    { d := r.1, events := [Event.Delete req], err := r.2 }
  | .ok op =>
    match op.Wait with
    | some err => { d := d, events := [Event.Delete req, Event.Wait op.Id], err := some err }
    | none =>
      match op.Response with
      | .error err => { d := d, events := [Event.Delete req, Event.Wait op.Id], err := some err }
      | .ok _ => { d := d, events := [Event.Delete req, Event.Wait op.Id], err := none }

/-! ## Name resolvers for the managed-database clusters -/

/-- What a resolver reads of a listed cluster: `GetId()` and `GetName()`. -/
structure Cluster where
  Id : String
  Name : String
  deriving DecidableEq

/-- The request `ListClustersRequest` (the same shape for PostgreSQL, MongoDB
and ClickHouse). -/
structure ListClustersRequest where
  FolderId : String
  PageSize : Int
  PageToken : String
  Filter : String
  deriving DecidableEq

/-- The response `ListClustersResponse`: one page of clusters and the token of
the next page, empty when there is none. -/
structure ListClustersResponse where
  Clusters : List Cluster
  NextPageToken : String
  deriving DecidableEq

/-- The cluster services of the cloud facade: `sdk.MDB().PostgreSQL().Cluster().List`,
`sdk.MDB().MongoDB().Cluster().List` and `sdk.MDB().Clickhouse().Cluster().List`. -/
structure MDB where
  PostgreSQL : ListClustersRequest → Except Error ListClustersResponse
  MongoDB : ListClustersRequest → Except Error ListClustersResponse
  Clickhouse : ListClustersRequest → Except Error ListClustersResponse

/-- The error a resolver ends with. -/
inductive ResolveError where
  | NotFound (caption name : String)
  | AmbiguousName (caption name : String)
  | Transport (err : Error)
  deriving DecidableEq

/-- Modelled from the spec: `BaseResolver`, declared outside the resolver
file; the name to resolve and the folder to look in. -/
structure BaseResolver where
  Name : String
  folderID : String
  deriving DecidableEq

/-- The folder option of the resolver, `r.FolderID()`. -/
def BaseResolver.FolderID (r : BaseResolver) : String := r.folderID

/-- Modelled from the spec: `CreateResolverFilter`, declared outside the
resolver file.  The server-side predicate `field = "value"`, in which every
embedded double quote and backslash of the value is doubled. -/
def CreateResolverFilter (field value : String) : String :=
  field ++ " = \"" ++ String.join (value.toList.map fun c =>
    if c = '"' ∨ c = '\\' then String.mk [c, c] else c.toString) ++ "\""

/-- Modelled from the spec: `BaseResolver.findName`, declared outside the
resolver file.  A failed listing is surfaced; otherwise the listed items are
filtered by exact name: no match is not-found, two or more are an ambiguous
name, the sole match gives its id. -/
def BaseResolver.findName (r : BaseResolver) (caption : String) (slice : List Cluster)
    (err : Option Error) : Except ResolveError String :=
  match err with
  | some e => .error (ResolveError.Transport e)
  | none =>
    match slice.filter (fun c => c.Name == r.Name) with
    | [] => .error (ResolveError.NotFound caption r.Name)
    | [c] => .ok c.Id
    | _ :: _ :: _ => .error (ResolveError.AmbiguousName caption r.Name)

/-- The getter `resp.GetClusters()`, which returns no cluster on a nil
response. -/
def GetClusters (res : Except Error ListClustersResponse) : List Cluster :=
  match res with
  | .ok resp => resp.Clusters
  | .error _ => []

/-- The `err` half of a `(resp, err)` result. -/
def errOf (res : Except Error ListClustersResponse) : Option Error :=
  match res with
  | .ok _ => none
  | .error e => some e

/-- A run of a resolver: the listing requests it sent, in order, and its
result (the resolved id, or the error). -/
structure Resolution where
  requests : List ListClustersRequest
  result : Except ResolveError String

/-- The method `postgreSQLClusterResolver.Run`.  `DefaultResolverPageSize` is
the package constant of that name, declared outside the resolver file. -/
def postgreSQLClusterResolver.Run (DefaultResolverPageSize : Int) (r : BaseResolver)
    (sdk : MDB) : Resolution :=
  let req : ListClustersRequest :=
    { FolderId := r.FolderID, Filter := CreateResolverFilter "name" r.Name,
      PageSize := DefaultResolverPageSize, PageToken := "" }
  let res := sdk.PostgreSQL req
  { requests := [req], result := r.findName "cluster" (GetClusters res) (errOf res) }

/-- The method `mongodbClusterResolver.Run`. -/
def mongodbClusterResolver.Run (DefaultResolverPageSize : Int) (r : BaseResolver)
    (sdk : MDB) : Resolution :=
  let req : ListClustersRequest :=
    { FolderId := r.FolderID, Filter := CreateResolverFilter "name" r.Name,
      PageSize := DefaultResolverPageSize, PageToken := "" }
  let res := sdk.MongoDB req
  { requests := [req], result := r.findName "cluster" (GetClusters res) (errOf res) }

/-- The method `clickhouseClusterResolver.Run`. -/
def clickhouseClusterResolver.Run (DefaultResolverPageSize : Int) (r : BaseResolver)
    (sdk : MDB) : Resolution :=
  let req : ListClustersRequest :=
    { FolderId := r.FolderID, Filter := CreateResolverFilter "name" r.Name,
      PageSize := DefaultResolverPageSize, PageToken := "" }
  let res := sdk.Clickhouse req
  { requests := [req], result := r.findName "cluster" (GetClusters res) (errOf res) }

/-- The complete aggregate of a listing, in the words of the specification:
the pages are fetched one after the other by following `NextPageToken` until
it is empty (at most `fuel` pages) and their clusters are concatenated. -/
def aggregatePages (list : ListClustersRequest → Except Error ListClustersResponse)
    (req : ListClustersRequest) : Nat → Except Error (List Cluster)
  | 0 => .ok []
  | fuel + 1 =>
    match list req with
    | .error e => .error e
    | .ok resp =>
      if resp.NextPageToken = "" then .ok resp.Clusters
      else
        match aggregatePages list { req with PageToken := resp.NextPageToken } fuel with
        | .error e => .error e
        | .ok rest => .ok (resp.Clusters ++ rest)

/-- The outcome the specification asks of a resolver on a multi-page listing:
the single-match rule evaluated over the complete aggregate. -/
def resolveOverAggregate (r : BaseResolver)
    (list : ListClustersRequest → Except Error ListClustersResponse)
    (req : ListClustersRequest) (fuel : Nat) : Except ResolveError String :=
  match aggregatePages list req fuel with
  | .error e => .error (ResolveError.Transport e)
  | .ok all => r.findName "cluster" all none

/-- The one request a resolver sends: the folder, the name filter, the default
page size and no page token, which asks for the first page. -/
def firstPageRequest (DefaultResolverPageSize : Int) (r : BaseResolver) : ListClustersRequest :=
  { FolderId := r.FolderID, Filter := CreateResolverFilter "name" r.Name,
    PageSize := DefaultResolverPageSize, PageToken := "" }

/-- A run decided on the first page alone: the first-page request is the only
request sent, a failed listing is surfaced, and otherwise the single-match
rule is evaluated over the clusters of that one response, whatever its
`NextPageToken`: no name match gives not-found, a sole match its id, two or
more an ambiguous name. -/
def DecidedOnFirstPage (DefaultResolverPageSize : Int) (r : BaseResolver)
    (list : ListClustersRequest → Except Error ListClustersResponse) (run : Resolution) : Prop :=
  run.requests = [firstPageRequest DefaultResolverPageSize r] ∧
  (∀ e, list (firstPageRequest DefaultResolverPageSize r) = .error e →
    run.result = .error (ResolveError.Transport e)) ∧
  (∀ resp, list (firstPageRequest DefaultResolverPageSize r) = .ok resp →
    (resp.Clusters.filter (fun c => c.Name == r.Name) = [] →
      run.result = .error (ResolveError.NotFound "cluster" r.Name)) ∧
    (∀ c, resp.Clusters.filter (fun c => c.Name == r.Name) = [c] → run.result = .ok c.Id) ∧
    (2 ≤ (resp.Clusters.filter (fun c => c.Name == r.Name)).length →
      run.result = .error (ResolveError.AmbiguousName "cluster" r.Name)))

/-! ## Fixtures: stores and remote sides of the end-to-end scenarios -/

/-- A timestamp renderer that always succeeds. -/
def renderOk : Option Timestamp → Except Error String :=
  fun _ => .ok "2019-03-01T10:00:00Z"

/-- A not-found transport status. -/
def errNotFound : Error := { code := some 5, msg := "rpc error: code = NotFound" }

/-- A transport status other than not-found. -/
def errUnavailable : Error := { code := some 14, msg := "rpc error: code = Unavailable" }

/-- A store whose declaration equals its mirror. -/
def storeUnchanged : ResourceData :=
  { id := "s-1", state := [("name", "acct-1"), ("description", "dev")],
    diff := [("name", "acct-1"), ("description", "dev")],
    setMap := [], partialMode := false, partialMap := [] }

/-- A store in which only the description changed: declared `a`, mirrored `b`. -/
def storeDescriptionChanged : ResourceData :=
  { id := "s-1", state := [("name", "acct-1"), ("description", "b")],
    diff := [("name", "acct-1"), ("description", "a")],
    setMap := [], partialMode := false, partialMap := [] }

/-- A store in which name and description both changed. -/
def storeBothChanged : ResourceData :=
  { id := "s-1", state := [("name", "old"), ("description", "b")],
    diff := [("name", "new"), ("description", "a")],
    setMap := [], partialMode := false, partialMap := [] }

/-- The store of the drift scenario: id `s-1`, mirrored name `old`. -/
def storeDrift : ResourceData :=
  { id := "s-1", state := [("name", "old")], diff := [],
    setMap := [], partialMode := false, partialMap := [] }

/-- A store before create: no id, declared name and description. -/
def storeNew : ResourceData :=
  { id := "", state := [], diff := [("name", "acct-1"), ("description", "dev")],
    setMap := [], partialMode := false, partialMap := [] }

/-- The remote object behind `acct-1`. -/
def remoteAccount (id : String) : ServiceAccount :=
  { Id := id, FolderId := "f-1", CreatedAt := some { seconds := 1551434400, nanos := 0 },
    Name := "new", Description := "dev" }

/-- A remote side on which every call succeeds. -/
def cloudOk : SDK :=
  { Create := fun _ => .ok { Id := "op-c", Wait := none,
                             Response := .ok (Response.serviceAccount (remoteAccount "sa-1")) },
    Get := fun q => .ok (remoteAccount q.ServiceAccountId),
    Update := fun _ => .ok { Id := "op-u", Wait := none, Response := .ok Response.other },
    Delete := fun _ => .ok { Id := "op-d", Wait := none, Response := .ok Response.other } }

/-- A remote side on which the object has vanished: Get and Delete answer
not-found, Create still succeeds. -/
def cloudGone : SDK :=
  { cloudOk with Get := fun _ => .error errNotFound, Delete := fun _ => .error errNotFound }

/-- A remote side whose Get fails with a status other than not-found. -/
def cloudGetUnavailable : SDK :=
  { cloudOk with Get := fun _ => .error errUnavailable }

/-- A remote side whose Update RPC is refused. -/
def cloudUpdateRefused : SDK :=
  { cloudOk with Update := fun _ => .error errUnavailable }

/-- A remote side whose awaits fail: the Update and the Delete operation are
accepted and then fail while being awaited. -/
def cloudAwaitFails : SDK :=
  { cloudOk with
    Update := fun _ => .ok { Id := "op-u", Wait := some errUnavailable,
                             Response := .error errUnavailable },
    Delete := fun _ => .ok { Id := "op-d", Wait := some errUnavailable,
                             Response := .error errUnavailable } }

/-- A remote side whose Delete operation completes with a failure status. -/
def cloudDeleteResponseFails : SDK :=
  { cloudOk with
    Delete := fun _ => .ok { Id := "op-d", Wait := none, Response := .error errUnavailable } }

/-- A listing of two pages of one cluster each, both clusters named `db`. -/
def twoPageListing : ListClustersRequest → Except Error ListClustersResponse :=
  fun req =>
    if req.PageToken = "" then
      .ok { Clusters := [{ Id := "c-1", Name := "db" }], NextPageToken := "page-2" }
    else if req.PageToken = "page-2" then
      .ok { Clusters := [{ Id := "c-2", Name := "db" }], NextPageToken := "" }
    else .ok { Clusters := [], NextPageToken := "" }

/-- The cluster services all answering with the two-page listing. -/
def mdbTwoPages : MDB :=
  { PostgreSQL := twoPageListing, MongoDB := twoPageListing, Clickhouse := twoPageListing }

/-- A listing of a single page. -/
def onePageListing (clusters : List Cluster) :
    ListClustersRequest → Except Error ListClustersResponse :=
  fun _ => .ok { Clusters := clusters, NextPageToken := "" }

/-- The resolver for the name `db` in folder `f-1`. -/
def resolverDb : BaseResolver := { Name := "db", folderID := "f-1" }

/-! ## Auxiliary facts -/

/-- Entering or leaving partial-commit mode does not change the request that
Update assembles. -/
theorem updateRequest_Partial (d : ResourceData) (b : Bool) :
    updateRequest (d.Partial b) = updateRequest d := rfl

/-- The field-mask of the assembled request, path by path. -/
theorem updateRequest_paths (d : ResourceData) :
    (updateRequest d).UpdateMask.Paths =
      (if d.HasChange "name" then ["name"] else []) ++
      (if d.HasChange "description" then ["description"] else []) := by
  unfold updateRequest
  cases d.HasChange "name" <;> cases d.HasChange "description" <;> rfl

/-- The outcome of Read when Get fails. -/
theorem read_get_error (gt : Option Timestamp → Except Error String) (d : ResourceData)
    (config : Config) (e : Error) (h : config.sdk.Get ⟨d.Id⟩ = .error e) :
    resourceYandexIAMServiceAccountRead gt d config =
      { d := (handleNotFoundError e d ("Service Account " ++ quote (d.Get "name"))).1,
        events := [Event.Get ⟨d.Id⟩],
        err := (handleNotFoundError e d ("Service Account " ++ quote (d.Get "name"))).2 } := by
  unfold resourceYandexIAMServiceAccountRead
  simp only [h]

/-- The outcome of Read when Get succeeds and the timestamp cannot be
rendered. -/
theorem read_timestamp_error (gt : Option Timestamp → Except Error String) (d : ResourceData)
    (config : Config) (sa : ServiceAccount) (e : Error)
    (h : config.sdk.Get ⟨d.Id⟩ = .ok sa) (ht : gt sa.CreatedAt = .error e) :
    resourceYandexIAMServiceAccountRead gt d config =
      { d := d, events := [Event.Get ⟨d.Id⟩], err := some e } := by
  unfold resourceYandexIAMServiceAccountRead
  simp only [h, ht]

/-- The outcome of Read when Get succeeds and the timestamp is rendered. -/
theorem read_ok (gt : Option Timestamp → Except Error String) (d : ResourceData)
    (config : Config) (sa : ServiceAccount) (ts : String)
    (h : config.sdk.Get ⟨d.Id⟩ = .ok sa) (ht : gt sa.CreatedAt = .ok ts) :
    resourceYandexIAMServiceAccountRead gt d config =
      { d := (((d.Set "created_at" ts).Set "name" sa.Name).Set "folder_id" sa.FolderId).Set
               "description" sa.Description,
        events := [Event.Get ⟨d.Id⟩], err := none } := by
  unfold resourceYandexIAMServiceAccountRead
  simp only [h, ht]

/-- Read issues exactly one Get, for the stored id. -/
theorem read_events (gt : Option Timestamp → Except Error String) (d : ResourceData)
    (config : Config) :
    (resourceYandexIAMServiceAccountRead gt d config).events = [Event.Get ⟨d.Id⟩] := by
  cases h : config.sdk.Get ⟨d.Id⟩ with
  | error e => rw [read_get_error gt d config e h]
  | ok sa =>
    cases ht : gt sa.CreatedAt with
    | error e => rw [read_timestamp_error gt d config sa e h ht]
    | ok ts => rw [read_ok gt d config sa ts h ht]

/-- Commit marks leave the stored id alone. -/
theorem foldl_SetPartial_id (ps : List String) (d : ResourceData) :
    (ps.foldl (fun d v => d.SetPartial v) d).id = d.id := by
  induction ps generalizing d with
  | nil => rfl
  | cons p ps ih =>
    simp only [List.foldl_cons, ih]
    unfold ResourceData.SetPartial
    split <;> rfl

/-- The outcome of Update when the RPC is refused. -/
theorem update_rpc_error (gt : Option Timestamp → Except Error String) (d : ResourceData)
    (config : Config) (e : Error) (h : config.sdk.Update (updateRequest d) = .error e) :
    resourceYandexIAMServiceAccountUpdate gt d config =
      { d := d.Partial true, events := [Event.Update (updateRequest d)],
        err := some (Errorf ("Error while requesting API to update Service Account "
          ++ quote d.Id ++ ": ") e) } := by
  unfold resourceYandexIAMServiceAccountUpdate
  simp only [updateRequest_Partial, WrapOperation, h]
  rfl

/-- The outcome of Update when the await of the operation fails. -/
theorem update_wait_error (gt : Option Timestamp → Except Error String) (d : ResourceData)
    (config : Config) (op : Operation) (e : Error)
    (h : config.sdk.Update (updateRequest d) = .ok op) (hw : op.Wait = some e) :
    resourceYandexIAMServiceAccountUpdate gt d config =
      { d := d.Partial true, events := [Event.Update (updateRequest d), Event.Wait op.Id],
        err := some (Errorf ("Error updating Service Account " ++ quote d.Id ++ ": ") e) } := by
  unfold resourceYandexIAMServiceAccountUpdate
  simp only [updateRequest_Partial, WrapOperation, h, hw]
  rfl

/-- The side effects of Update when the RPC and the await succeed. -/
theorem update_ok_events (gt : Option Timestamp → Except Error String) (d : ResourceData)
    (config : Config) (op : Operation)
    (h : config.sdk.Update (updateRequest d) = .ok op) (hw : op.Wait = none) :
    (resourceYandexIAMServiceAccountUpdate gt d config).events =
      [Event.Update (updateRequest d), Event.Wait op.Id]
        ++ (updateRequest d).UpdateMask.Paths.map Event.SetPartial
        ++ [Event.Get ⟨d.Id⟩] := by
  unfold resourceYandexIAMServiceAccountUpdate
  simp only [updateRequest_Partial, WrapOperation, h, hw, read_events]
  simp only [ResourceData.Id, ResourceData.Partial, foldl_SetPartial_id]

/-- The outcome of Delete when the initial call fails. -/
theorem delete_rpc_error (d : ResourceData) (config : Config) (e : Error)
    (h : config.sdk.Delete ⟨d.Id⟩ = .error e) :
    resourceYandexIAMServiceAccountDelete d config =
      { d := (handleNotFoundError e d ("Service Account " ++ quote (d.Get "name"))).1,
        events := [Event.Delete ⟨d.Id⟩],
        err := (handleNotFoundError e d ("Service Account " ++ quote (d.Get "name"))).2 } := by
  unfold resourceYandexIAMServiceAccountDelete
  simp only [WrapOperation, h]

/-- The outcome of Delete when the initial call is accepted: the store is not
written, the operation is awaited, and the error is that of the await, else
that of the operation response. -/
theorem delete_accepted (d : ResourceData) (config : Config) (op : Operation)
    (h : config.sdk.Delete ⟨d.Id⟩ = .ok op) :
    resourceYandexIAMServiceAccountDelete d config =
      { d := d, events := [Event.Delete ⟨d.Id⟩, Event.Wait op.Id],
        err := match op.Wait with
          | some e => some e
          | none =>
            match op.Response with
            | .error e => some e
            | .ok _ => none } := by
  unfold resourceYandexIAMServiceAccountDelete
  simp only [WrapOperation, h]
  cases op.Wait with
  | some e => rfl
  | none => cases op.Response <;> rfl

/-- The outcome of Create once the operation has produced a service account:
the id is stored, then Read runs on the store holding it. -/
theorem create_committed (gt : Option Timestamp → Except Error String) (d : ResourceData)
    (config : Config) (folderID : String) (op : Operation) (sa : ServiceAccount)
    (hf : getFolderID d config = .ok folderID)
    (hc : config.sdk.Create ⟨folderID, d.Get "name", d.Get "description"⟩ = .ok op)
    (hw : op.Wait = none) (hr : op.Response = .ok (Response.serviceAccount sa)) :
    resourceYandexIAMServiceAccountCreate gt d config =
      { d := (resourceYandexIAMServiceAccountRead gt (d.SetId sa.Id) config).d,
        events := [Event.Create ⟨folderID, d.Get "name", d.Get "description"⟩, Event.Wait op.Id]
          ++ (resourceYandexIAMServiceAccountRead gt (d.SetId sa.Id) config).events,
        err := (resourceYandexIAMServiceAccountRead gt (d.SetId sa.Id) config).err } := by
  unfold resourceYandexIAMServiceAccountCreate
  simp only [hf, WrapOperation, hc, hw, hr]

/-- Writing attributes leaves the stored id alone. -/
theorem Set_Id (d : ResourceData) (k v : String) : (d.Set k v).Id = d.Id := rfl

/-- The id read back after `SetId`. -/
theorem SetId_Id (d : ResourceData) (v : String) : (d.SetId v).Id = v := rfl

/-- In partial-commit mode an attribute that is not committed is retained in
its mirrored form. -/
theorem retained_Partial_true (d : ResourceData) (k : String) (h : k ∉ d.partialMap) :
    (d.Partial true).retained k = d.old k := by
  simp [ResourceData.retained, ResourceData.Partial, ResourceData.old, h]

/-- A path listed in the field-mask is one of `name`, `description`, and is
listed because the host reports it changed. -/
theorem mem_updateRequest_paths (d : ResourceData) (p : String) :
    p ∈ (updateRequest d).UpdateMask.Paths ↔
      (p = "name" ∧ d.HasChange "name" = true) ∨
      (p = "description" ∧ d.HasChange "description" = true) := by
  rw [updateRequest_paths]
  cases d.HasChange "name" <;> cases d.HasChange "description" <;> simp

/-- The `name` field of the assembled request. -/
theorem updateRequest_Name (d : ResourceData) :
    (updateRequest d).Name = if d.HasChange "name" then d.Get "name" else "" := by
  unfold updateRequest
  cases d.HasChange "name" <;> cases d.HasChange "description" <;> rfl

/-- The `description` field of the assembled request. -/
theorem updateRequest_Description (d : ResourceData) :
    (updateRequest d).Description =
      if d.HasChange "description" then d.Get "description" else "" := by
  unfold updateRequest
  cases d.HasChange "name" <;> cases d.HasChange "description" <;> rfl

/-- The first side effect of Update is the Update RPC with the assembled
request, whatever the remote side answers. -/
theorem update_events_cons (gt : Option Timestamp → Except Error String) (d : ResourceData)
    (config : Config) :
    ∃ rest, (resourceYandexIAMServiceAccountUpdate gt d config).events =
        Event.Update (updateRequest d) :: rest ∧
      ∀ q, Event.Update q ∉ rest := by
  cases h : config.sdk.Update (updateRequest d) with
  | error e =>
    refine ⟨[], ?_, by simp⟩
    rw [update_rpc_error gt d config e h]
  | ok op =>
    cases hw : op.Wait with
    | some e =>
      refine ⟨[Event.Wait op.Id], ?_, by simp⟩
      rw [update_wait_error gt d config op e h hw]
    | none =>
      refine ⟨[Event.Wait op.Id] ++ (updateRequest d).UpdateMask.Paths.map Event.SetPartial
        ++ [Event.Get ⟨d.Id⟩], ?_, by simp⟩
      rw [update_ok_events gt d config op h hw]
      rfl

/-! ## C1: Update with an empty field-mask -/

/-- C1, as stated, fails: with declaration equal to mirror (neither `name` nor
`description` reported changed, empty field-mask) Update still sends the
Update RPC, with an empty mask, awaits it and reads back. -/
theorem C1_update_empty_mask_still_issues_rpc :
    storeUnchanged.HasChange "name" = false ∧
    storeUnchanged.HasChange "description" = false ∧
    (updateRequest storeUnchanged).UpdateMask.Paths = [] ∧
    (resourceYandexIAMServiceAccountUpdate renderOk storeUnchanged ⟨"f-1", cloudOk⟩).events =
      [Event.Update ⟨"s-1", ⟨[]⟩, "", ""⟩, Event.Wait "op-u", Event.Get ⟨"s-1"⟩] := by
  decide

/-- C1, amended: for every state Update issues exactly one Update RPC, as its
first side effect and whatever the field-mask holds; when the host reports
neither `name` nor `description` changed, the request it sends carries the
stored id, an empty field-mask and no field value. -/
theorem C1_update_always_issues_one_rpc (gt : Option Timestamp → Except Error String)
    (d : ResourceData) (config : Config) :
    (∃ rest, (resourceYandexIAMServiceAccountUpdate gt d config).events =
        Event.Update (updateRequest d) :: rest ∧
      ∀ q, Event.Update q ∉ rest) ∧
    (d.HasChange "name" = false → d.HasChange "description" = false →
      updateRequest d = ⟨d.Id, ⟨[]⟩, "", ""⟩) := by
  refine ⟨update_events_cons gt d config, ?_⟩
  intro hn hd
  unfold updateRequest
  simp [hn, hd]

/-- C1, amended, at the no-op scenario: the request sent holds the id `s-1` and
an empty mask. -/
theorem C1_update_always_issues_one_rpc_witness :
    updateRequest storeUnchanged = ⟨"s-1", ⟨[]⟩, "", ""⟩ :=
  (C1_update_always_issues_one_rpc renderOk storeUnchanged ⟨"f-1", cloudOk⟩).2
    (by decide) (by decide)

/-! ## C2: the field-mask of the Update request -/

/-- C2: for every state the request sent by Update is the assembled one; its
field-mask lists exactly those of `name`, `description` that the host reports
changed, each once, `name` first, never `folder_id` or `created_at`; and every
field named in the mask carries the declared value read from the store. -/
theorem C2_update_field_mask (gt : Option Timestamp → Except Error String)
    (d : ResourceData) (config : Config) :
    (resourceYandexIAMServiceAccountUpdate gt d config).events.head? =
      some (Event.Update (updateRequest d)) ∧
    (updateRequest d).ServiceAccountId = d.Id ∧
    (updateRequest d).UpdateMask.Paths =
      (if d.HasChange "name" then ["name"] else []) ++
      (if d.HasChange "description" then ["description"] else []) ∧
    (∀ p, p ∈ (updateRequest d).UpdateMask.Paths ↔
      (p = "name" ∧ d.HasChange "name" = true) ∨
      (p = "description" ∧ d.HasChange "description" = true)) ∧
    (updateRequest d).UpdateMask.Paths.Nodup ∧
    "folder_id" ∉ (updateRequest d).UpdateMask.Paths ∧
    "created_at" ∉ (updateRequest d).UpdateMask.Paths ∧
    ("name" ∈ (updateRequest d).UpdateMask.Paths →
      (updateRequest d).Name = d.Get "name") ∧
    ("description" ∈ (updateRequest d).UpdateMask.Paths →
      (updateRequest d).Description = d.Get "description") := by
  refine ⟨?_, ?_, updateRequest_paths d, mem_updateRequest_paths d, ?_, ?_, ?_, ?_, ?_⟩
  · obtain ⟨rest, h, _⟩ := update_events_cons gt d config
    rw [h]; rfl
  · unfold updateRequest
    cases d.HasChange "name" <;> cases d.HasChange "description" <;> rfl
  · rw [updateRequest_paths]
    cases d.HasChange "name" <;> cases d.HasChange "description" <;> decide
  · rw [mem_updateRequest_paths]
    rintro (⟨h, _⟩ | ⟨h, _⟩) <;> exact absurd h (by decide)
  · rw [mem_updateRequest_paths]
    rintro (⟨h, _⟩ | ⟨h, _⟩) <;> exact absurd h (by decide)
  · intro h
    rw [mem_updateRequest_paths] at h
    rcases h with ⟨_, h⟩ | ⟨h, _⟩
    · rw [updateRequest_Name, h]; rfl
    · exact absurd h (by decide)
  · intro h
    rw [mem_updateRequest_paths] at h
    rcases h with ⟨h, _⟩ | ⟨_, h⟩
    · exact absurd h (by decide)
    · rw [updateRequest_Description, h]; rfl

/-- C2 at the description-only scenario: declared description `a`, mirrored
`b`, name unchanged; the mask is `["description"]` and the request carries
`a`. -/
theorem C2_update_field_mask_witness :
    (updateRequest storeDescriptionChanged).UpdateMask.Paths = ["description"] ∧
    (updateRequest storeDescriptionChanged).Description = "a" :=
  ⟨(C2_update_field_mask renderOk storeDescriptionChanged ⟨"f-1", cloudOk⟩).2.2.1.trans
      (by decide),
   ((C2_update_field_mask renderOk storeDescriptionChanged ⟨"f-1", cloudOk⟩).2.2.2.2.2.2.2.2
      (by decide)).trans (by decide)⟩

/-! ## C3: Read when Get fails -/

/-- C3: when Get fails with not-found, Read clears the stored id and returns
success; when it fails with any other error, Read returns that error and
leaves the whole store, id and mirrored attributes, as it was. -/
theorem C3_read_get_failure (gt : Option Timestamp → Except Error String)
    (d : ResourceData) (config : Config) (e : Error)
    (h : config.sdk.Get ⟨d.Id⟩ = .error e) :
    (isStatusWithCode e codesNotFound = true →
      (resourceYandexIAMServiceAccountRead gt d config).d.Id = "" ∧
      (resourceYandexIAMServiceAccountRead gt d config).err = none) ∧
    (isStatusWithCode e codesNotFound = false →
      (resourceYandexIAMServiceAccountRead gt d config).err = some e ∧
      (resourceYandexIAMServiceAccountRead gt d config).d = d) := by
  rw [read_get_error gt d config e h]
  constructor
  · intro hn
    simp [handleNotFoundError, hn, ResourceData.SetId, ResourceData.Id]
  · intro hn
    simp [handleNotFoundError, hn]

/-- C3 at the external-deletion scenario (state id `s-1`, Get answers
not-found) and at a refused Get. -/
theorem C3_read_get_failure_witness :
    ((resourceYandexIAMServiceAccountRead renderOk storeDrift ⟨"f-1", cloudGone⟩).d.Id = "" ∧
      (resourceYandexIAMServiceAccountRead renderOk storeDrift ⟨"f-1", cloudGone⟩).err = none) ∧
    ((resourceYandexIAMServiceAccountRead renderOk storeDrift
        ⟨"f-1", cloudGetUnavailable⟩).err = some errUnavailable ∧
      (resourceYandexIAMServiceAccountRead renderOk storeDrift
        ⟨"f-1", cloudGetUnavailable⟩).d = storeDrift) :=
  ⟨(C3_read_get_failure renderOk storeDrift ⟨"f-1", cloudGone⟩ errNotFound rfl).1 (by decide),
   (C3_read_get_failure renderOk storeDrift ⟨"f-1", cloudGetUnavailable⟩ errUnavailable rfl).2
     (by decide)⟩

/-! ## C4: Delete of a vanished resource -/

/-- C4: when the initial Delete call answers not-found, Delete reports
success, the stored id is empty afterwards, and the only side effect is that
one call: no operation is awaited. -/
theorem C4_delete_not_found (d : ResourceData) (config : Config) (e : Error)
    (h : config.sdk.Delete ⟨d.Id⟩ = .error e)
    (hn : isStatusWithCode e codesNotFound = true) :
    (resourceYandexIAMServiceAccountDelete d config).err = none ∧
    (resourceYandexIAMServiceAccountDelete d config).d.Id = "" ∧
    (resourceYandexIAMServiceAccountDelete d config).events = [Event.Delete ⟨d.Id⟩] ∧
    ∀ opId, Event.Wait opId ∉ (resourceYandexIAMServiceAccountDelete d config).events := by
  rw [delete_rpc_error d config e h]
  simp [handleNotFoundError, hn, ResourceData.SetId, ResourceData.Id]

/-- C4 at the vanished-resource scenario: id `s-1`, the Delete call answers
not-found. -/
theorem C4_delete_not_found_witness :
    (resourceYandexIAMServiceAccountDelete storeUnchanged ⟨"f-1", cloudGone⟩).err = none ∧
    (resourceYandexIAMServiceAccountDelete storeUnchanged ⟨"f-1", cloudGone⟩).d.Id = "" ∧
    (resourceYandexIAMServiceAccountDelete storeUnchanged ⟨"f-1", cloudGone⟩).events =
      [Event.Delete ⟨"s-1"⟩] ∧
    ∀ opId, Event.Wait opId ∉
      (resourceYandexIAMServiceAccountDelete storeUnchanged ⟨"f-1", cloudGone⟩).events :=
  C4_delete_not_found storeUnchanged ⟨"f-1", cloudGone⟩ errNotFound rfl (by decide)

/-! ## C5: Create commits the id before the read-back -/

/-- C5: when the create RPC and its await succeed and the operation response
is a service account with id `X`, the read-back Get is issued for `X` (the id
is stored before the read-back), and if that Get fails with an error other
than not-found, Create returns that error while the stored id is still `X`. -/
theorem C5_create_commit_then_read (gt : Option Timestamp → Except Error String)
    (d : ResourceData) (config : Config) (folderID : String) (op : Operation)
    (sa : ServiceAccount)
    (hf : getFolderID d config = .ok folderID)
    (hc : config.sdk.Create ⟨folderID, d.Get "name", d.Get "description"⟩ = .ok op)
    (hw : op.Wait = none) (hr : op.Response = .ok (Response.serviceAccount sa)) :
    (resourceYandexIAMServiceAccountCreate gt d config).events =
      [Event.Create ⟨folderID, d.Get "name", d.Get "description"⟩, Event.Wait op.Id,
       Event.Get ⟨sa.Id⟩] ∧
    ∀ e, config.sdk.Get ⟨sa.Id⟩ = .error e → isStatusWithCode e codesNotFound = false →
      (resourceYandexIAMServiceAccountCreate gt d config).err = some e ∧
      (resourceYandexIAMServiceAccountCreate gt d config).d.Id = sa.Id := by
  rw [create_committed gt d config folderID op sa hf hc hw hr]
  refine ⟨by simp [read_events, SetId_Id], ?_⟩
  intro e hg hn
  rw [read_get_error gt (d.SetId sa.Id) config e hg]
  simp [handleNotFoundError, hn, SetId_Id]

/-- C5 at a create whose read-back is refused: the server created `sa-1`, Get
answers unavailable; Create returns that error and the stored id is `sa-1`. -/
theorem C5_create_commit_then_read_witness :
    (resourceYandexIAMServiceAccountCreate renderOk storeNew
        ⟨"f-1", cloudGetUnavailable⟩).events =
      [Event.Create ⟨"f-1", "acct-1", "dev"⟩, Event.Wait "op-c", Event.Get ⟨"sa-1"⟩] ∧
    (resourceYandexIAMServiceAccountCreate renderOk storeNew
        ⟨"f-1", cloudGetUnavailable⟩).err = some errUnavailable ∧
    (resourceYandexIAMServiceAccountCreate renderOk storeNew
        ⟨"f-1", cloudGetUnavailable⟩).d.Id = "sa-1" :=
  ⟨(C5_create_commit_then_read renderOk storeNew ⟨"f-1", cloudGetUnavailable⟩ "f-1"
      ⟨"op-c", none, .ok (Response.serviceAccount (remoteAccount "sa-1"))⟩
      (remoteAccount "sa-1") rfl rfl rfl rfl).1,
   (C5_create_commit_then_read renderOk storeNew ⟨"f-1", cloudGetUnavailable⟩ "f-1"
      ⟨"op-c", none, .ok (Response.serviceAccount (remoteAccount "sa-1"))⟩
      (remoteAccount "sa-1") rfl rfl rfl rfl).2 errUnavailable rfl (by decide)⟩

/-! ## C6: Read refreshes the mirror -/

/-- C6: when Get succeeds and the timestamp of the remote object renders to
`ts`, Read returns success, keeps the stored id, and afterwards the store
holds the remote object's `name`, `folder_id` and `description` and `ts` for
`created_at`; outside partial-commit mode these are the values the host
retains. -/
theorem C6_read_refreshes_mirror (gt : Option Timestamp → Except Error String)
    (d : ResourceData) (config : Config) (sa : ServiceAccount) (ts : String)
    (h : config.sdk.Get ⟨d.Id⟩ = .ok sa) (ht : gt sa.CreatedAt = .ok ts) :
    (resourceYandexIAMServiceAccountRead gt d config).err = none ∧
    (resourceYandexIAMServiceAccountRead gt d config).d.Id = d.Id ∧
    (resourceYandexIAMServiceAccountRead gt d config).d.Get "name" = sa.Name ∧
    (resourceYandexIAMServiceAccountRead gt d config).d.Get "folder_id" = sa.FolderId ∧
    (resourceYandexIAMServiceAccountRead gt d config).d.Get "description" = sa.Description ∧
    (resourceYandexIAMServiceAccountRead gt d config).d.Get "created_at" = ts ∧
    (d.partialMode = false →
      (resourceYandexIAMServiceAccountRead gt d config).d.retained "name" = sa.Name ∧
      (resourceYandexIAMServiceAccountRead gt d config).d.retained "folder_id" = sa.FolderId ∧
      (resourceYandexIAMServiceAccountRead gt d config).d.retained "description"
        = sa.Description ∧
      (resourceYandexIAMServiceAccountRead gt d config).d.retained "created_at" = ts) := by
  rw [read_ok gt d config sa ts h ht]
  refine ⟨rfl, rfl, ?_, ?_, ?_, ?_, ?_⟩
  · simp [ResourceData.Get, ResourceData.Set, List.lookup]
  · simp [ResourceData.Get, ResourceData.Set, List.lookup]
  · simp [ResourceData.Get, ResourceData.Set, List.lookup]
  · simp [ResourceData.Get, ResourceData.Set, List.lookup]
  · intro hp
    simp [ResourceData.retained, ResourceData.Get, ResourceData.Set, List.lookup, hp]

/-- C6 at the drift scenario: state id `s-1` with mirrored name `old`, the
remote object is named `new`; after Read the name is `new`. -/
theorem C6_read_refreshes_mirror_witness :
    (resourceYandexIAMServiceAccountRead renderOk storeDrift ⟨"f-1", cloudOk⟩).err = none ∧
    (resourceYandexIAMServiceAccountRead renderOk storeDrift ⟨"f-1", cloudOk⟩).d.Id = "s-1" ∧
    (resourceYandexIAMServiceAccountRead renderOk storeDrift ⟨"f-1", cloudOk⟩).d.Get "name"
      = "new" ∧
    (resourceYandexIAMServiceAccountRead renderOk storeDrift ⟨"f-1", cloudOk⟩).d.retained "name"
      = "new" :=
  ⟨(C6_read_refreshes_mirror renderOk storeDrift ⟨"f-1", cloudOk⟩ (remoteAccount "s-1")
      "2019-03-01T10:00:00Z" rfl rfl).1,
   (C6_read_refreshes_mirror renderOk storeDrift ⟨"f-1", cloudOk⟩ (remoteAccount "s-1")
      "2019-03-01T10:00:00Z" rfl rfl).2.1,
   (C6_read_refreshes_mirror renderOk storeDrift ⟨"f-1", cloudOk⟩ (remoteAccount "s-1")
      "2019-03-01T10:00:00Z" rfl rfl).2.2.1,
   ((C6_read_refreshes_mirror renderOk storeDrift ⟨"f-1", cloudOk⟩ (remoteAccount "s-1")
      "2019-03-01T10:00:00Z" rfl rfl).2.2.2.2.2.2 rfl).1⟩

/-! ## C7: Update commits nothing on failure -/

/-- C7: when the Update RPC or the await of its operation fails, Update
returns an error, records no path as committed (no commit mark among its side
effects, the committed paths are those of before), performs no read-back and
writes no attribute, so `name` and `description`, when not committed before
the call, are retained by the host in their pre-call form; when the RPC and
the await both succeed, the commit marks are exactly the paths of the
field-mask, in order, placed after the RPC and the await and before the
read-back. -/
theorem C7_update_failure_commits_nothing (gt : Option Timestamp → Except Error String)
    (d : ResourceData) (config : Config) :
    (((∃ e, config.sdk.Update (updateRequest d) = .error e) ∨
      (∃ op e, config.sdk.Update (updateRequest d) = .ok op ∧ op.Wait = some e)) →
      (resourceYandexIAMServiceAccountUpdate gt d config).err ≠ none ∧
      (resourceYandexIAMServiceAccountUpdate gt d config).d.partialMap = d.partialMap ∧
      (∀ p, Event.SetPartial p ∉ (resourceYandexIAMServiceAccountUpdate gt d config).events) ∧
      (∀ q, Event.Get q ∉ (resourceYandexIAMServiceAccountUpdate gt d config).events) ∧
      (resourceYandexIAMServiceAccountUpdate gt d config).d.setMap = d.setMap ∧
      (resourceYandexIAMServiceAccountUpdate gt d config).d.Id = d.Id ∧
      ("name" ∉ d.partialMap →
        (resourceYandexIAMServiceAccountUpdate gt d config).d.retained "name" = d.old "name") ∧
      ("description" ∉ d.partialMap →
        (resourceYandexIAMServiceAccountUpdate gt d config).d.retained "description"
          = d.old "description")) ∧
    (∀ op, config.sdk.Update (updateRequest d) = .ok op → op.Wait = none →
      (resourceYandexIAMServiceAccountUpdate gt d config).events =
        [Event.Update (updateRequest d), Event.Wait op.Id]
          ++ (updateRequest d).UpdateMask.Paths.map Event.SetPartial
          ++ [Event.Get ⟨d.Id⟩]) := by
  refine ⟨?_, fun op h hw => update_ok_events gt d config op h hw⟩
  rintro (⟨e, h⟩ | ⟨op, e, h, hw⟩)
  · rw [update_rpc_error gt d config e h]
    exact ⟨by simp, rfl, by simp, by simp, rfl, rfl,
      retained_Partial_true d "name", retained_Partial_true d "description"⟩
  · rw [update_wait_error gt d config op e h hw]
    exact ⟨by simp, rfl, by simp, by simp, rfl, rfl,
      retained_Partial_true d "name", retained_Partial_true d "description"⟩

/-- C7 at three updates of a store whose name and description both changed
(mirror `old` / `b`): the RPC is refused, the await fails, and both succeed.
In the two failures the host retains `old` and `b` and nothing is marked; in
the success both paths are marked after the await. -/
theorem C7_update_failure_commits_nothing_witness :
    ((resourceYandexIAMServiceAccountUpdate renderOk storeBothChanged
        ⟨"f-1", cloudUpdateRefused⟩).d.retained "name" = "old" ∧
      (resourceYandexIAMServiceAccountUpdate renderOk storeBothChanged
        ⟨"f-1", cloudUpdateRefused⟩).d.retained "description" = "b") ∧
    ((resourceYandexIAMServiceAccountUpdate renderOk storeBothChanged
        ⟨"f-1", cloudAwaitFails⟩).d.retained "name" = "old" ∧
      (resourceYandexIAMServiceAccountUpdate renderOk storeBothChanged
        ⟨"f-1", cloudAwaitFails⟩).d.partialMap = []) ∧
    (resourceYandexIAMServiceAccountUpdate renderOk storeBothChanged ⟨"f-1", cloudOk⟩).events =
      [Event.Update ⟨"s-1", ⟨["name", "description"]⟩, "new", "a"⟩, Event.Wait "op-u",
       Event.SetPartial "name", Event.SetPartial "description", Event.Get ⟨"s-1"⟩] :=
  ⟨⟨(((C7_update_failure_commits_nothing renderOk storeBothChanged
        ⟨"f-1", cloudUpdateRefused⟩).1 (Or.inl ⟨errUnavailable, rfl⟩)).2.2.2.2.2.2.1
        (by decide)).trans (by decide),
    (((C7_update_failure_commits_nothing renderOk storeBothChanged
        ⟨"f-1", cloudUpdateRefused⟩).1 (Or.inl ⟨errUnavailable, rfl⟩)).2.2.2.2.2.2.2
        (by decide)).trans (by decide)⟩,
   ⟨(((C7_update_failure_commits_nothing renderOk storeBothChanged
        ⟨"f-1", cloudAwaitFails⟩).1
        (Or.inr ⟨⟨"op-u", some errUnavailable, .error errUnavailable⟩, errUnavailable,
          rfl, rfl⟩)).2.2.2.2.2.2.1 (by decide)).trans (by decide),
    ((C7_update_failure_commits_nothing renderOk storeBothChanged
        ⟨"f-1", cloudAwaitFails⟩).1
        (Or.inr ⟨⟨"op-u", some errUnavailable, .error errUnavailable⟩, errUnavailable,
          rfl, rfl⟩)).2.1⟩,
   ((C7_update_failure_commits_nothing renderOk storeBothChanged ⟨"f-1", cloudOk⟩).2
      ⟨"op-u", none, .ok Response.other⟩ rfl rfl).trans (by decide)⟩

/-! ## C8: Delete after a successful await -/

/-- C8, as stated, fails: with id `s-1`, the Delete call accepted and the
awaited operation completed successfully, Delete returns success and the
stored id is still `s-1`, not empty. -/
theorem C8_delete_success_keeps_id :
    (resourceYandexIAMServiceAccountDelete storeUnchanged ⟨"f-1", cloudOk⟩).err = none ∧
    (resourceYandexIAMServiceAccountDelete storeUnchanged ⟨"f-1", cloudOk⟩).events =
      [Event.Delete ⟨"s-1"⟩, Event.Wait "op-d"] ∧
    (resourceYandexIAMServiceAccountDelete storeUnchanged ⟨"f-1", cloudOk⟩).d.Id = "s-1" ∧
    (resourceYandexIAMServiceAccountDelete storeUnchanged ⟨"f-1", cloudOk⟩).d.Id ≠ "" := by
  decide

/-- C8, amended: when the initial Delete call is accepted, Delete awaits the
operation and never writes the store, so the stored id keeps its pre-call
value in every case; it returns success when the await and the operation
response succeed, and otherwise the error of the await, or else that of the
response. -/
theorem C8_delete_accepted_keeps_store (d : ResourceData) (config : Config) (op : Operation)
    (h : config.sdk.Delete ⟨d.Id⟩ = .ok op) :
    (resourceYandexIAMServiceAccountDelete d config).d = d ∧
    (resourceYandexIAMServiceAccountDelete d config).d.Id = d.Id ∧
    (resourceYandexIAMServiceAccountDelete d config).events =
      [Event.Delete ⟨d.Id⟩, Event.Wait op.Id] ∧
    (∀ resp, op.Wait = none → op.Response = .ok resp →
      (resourceYandexIAMServiceAccountDelete d config).err = none) ∧
    (∀ e, op.Wait = some e →
      (resourceYandexIAMServiceAccountDelete d config).err = some e) ∧
    (∀ e, op.Wait = none → op.Response = .error e →
      (resourceYandexIAMServiceAccountDelete d config).err = some e) := by
  rw [delete_accepted d config op h]
  refine ⟨rfl, rfl, rfl, ?_, ?_, ?_⟩
  · intro resp hw hr
    simp only [hw, hr]
  · intro e hw
    simp only [hw]
  · intro e hw hr
    simp only [hw, hr]

/-- C8, amended, at three deletes of `s-1`: the operation succeeds, its await
fails, its response fails; the stored id is `s-1` after each. -/
theorem C8_delete_accepted_keeps_store_witness :
    ((resourceYandexIAMServiceAccountDelete storeUnchanged ⟨"f-1", cloudOk⟩).d = storeUnchanged ∧
      (resourceYandexIAMServiceAccountDelete storeUnchanged ⟨"f-1", cloudOk⟩).err = none) ∧
    ((resourceYandexIAMServiceAccountDelete storeUnchanged ⟨"f-1", cloudAwaitFails⟩).d.Id
        = "s-1" ∧
      (resourceYandexIAMServiceAccountDelete storeUnchanged ⟨"f-1", cloudAwaitFails⟩).err
        = some errUnavailable) ∧
    ((resourceYandexIAMServiceAccountDelete storeUnchanged
        ⟨"f-1", cloudDeleteResponseFails⟩).d.Id = "s-1" ∧
      (resourceYandexIAMServiceAccountDelete storeUnchanged
        ⟨"f-1", cloudDeleteResponseFails⟩).err = some errUnavailable) :=
  ⟨⟨(C8_delete_accepted_keeps_store storeUnchanged ⟨"f-1", cloudOk⟩
        ⟨"op-d", none, .ok Response.other⟩ rfl).1,
    (C8_delete_accepted_keeps_store storeUnchanged ⟨"f-1", cloudOk⟩
        ⟨"op-d", none, .ok Response.other⟩ rfl).2.2.2.1 Response.other rfl rfl⟩,
   ⟨(C8_delete_accepted_keeps_store storeUnchanged ⟨"f-1", cloudAwaitFails⟩
        ⟨"op-d", some errUnavailable, .error errUnavailable⟩ rfl).2.1,
    (C8_delete_accepted_keeps_store storeUnchanged ⟨"f-1", cloudAwaitFails⟩
        ⟨"op-d", some errUnavailable, .error errUnavailable⟩ rfl).2.2.2.2.1
        errUnavailable rfl⟩,
   ⟨(C8_delete_accepted_keeps_store storeUnchanged ⟨"f-1", cloudDeleteResponseFails⟩
        ⟨"op-d", none, .error errUnavailable⟩ rfl).2.1,
    (C8_delete_accepted_keeps_store storeUnchanged ⟨"f-1", cloudDeleteResponseFails⟩
        ⟨"op-d", none, .error errUnavailable⟩ rfl).2.2.2.2.2
        errUnavailable rfl rfl⟩⟩

/-! ## C9: the id after a successful Create -/

/-- C9, as stated, fails: the server created the service account `sa-1`, the
read-back Get answers not-found; Create returns success and the stored id is
empty. -/
theorem C9_create_read_back_not_found_clears_id :
    (resourceYandexIAMServiceAccountCreate renderOk storeNew ⟨"f-1", cloudGone⟩).events =
      [Event.Create ⟨"f-1", "acct-1", "dev"⟩, Event.Wait "op-c", Event.Get ⟨"sa-1"⟩] ∧
    (resourceYandexIAMServiceAccountCreate renderOk storeNew ⟨"f-1", cloudGone⟩).err = none ∧
    (resourceYandexIAMServiceAccountCreate renderOk storeNew ⟨"f-1", cloudGone⟩).d.Id = "" ∧
    (resourceYandexIAMServiceAccountCreate renderOk storeNew ⟨"f-1", cloudGone⟩).d.Id
      ≠ "sa-1" := by
  decide

/-- C9, amended: when Create returns success, the server-created service
account has the non-empty id `X` and the read-back Get does not answer
not-found, the stored id afterwards equals `X` and is non-empty; when the
read-back Get answers not-found, Create returns success with the stored id
empty. -/
theorem C9_create_success_id (gt : Option Timestamp → Except Error String)
    (d : ResourceData) (config : Config) (folderID : String) (op : Operation)
    (sa : ServiceAccount)
    (hf : getFolderID d config = .ok folderID)
    (hc : config.sdk.Create ⟨folderID, d.Get "name", d.Get "description"⟩ = .ok op)
    (hw : op.Wait = none) (hr : op.Response = .ok (Response.serviceAccount sa))
    (hX : sa.Id ≠ "") :
    ((resourceYandexIAMServiceAccountCreate gt d config).err = none →
      (∀ e, config.sdk.Get ⟨sa.Id⟩ = .error e → isStatusWithCode e codesNotFound = false) →
      (resourceYandexIAMServiceAccountCreate gt d config).d.Id = sa.Id ∧
      (resourceYandexIAMServiceAccountCreate gt d config).d.Id ≠ "") ∧
    (∀ e, config.sdk.Get ⟨sa.Id⟩ = .error e → isStatusWithCode e codesNotFound = true →
      (resourceYandexIAMServiceAccountCreate gt d config).err = none ∧
      (resourceYandexIAMServiceAccountCreate gt d config).d.Id = "") := by
  rw [create_committed gt d config folderID op sa hf hc hw hr]
  constructor
  · intro hs hnf
    cases hg : config.sdk.Get ⟨sa.Id⟩ with
    | error e =>
      have hn := hnf e hg
      rw [read_get_error gt (d.SetId sa.Id) config e hg] at hs
      simp [handleNotFoundError, hn] at hs
    | ok sa2 =>
      cases ht : gt sa2.CreatedAt with
      | error e =>
        rw [read_timestamp_error gt (d.SetId sa.Id) config sa2 e hg ht] at hs
        simp at hs
      | ok ts =>
        rw [read_ok gt (d.SetId sa.Id) config sa2 ts hg ht]
        exact ⟨rfl, hX⟩
  · intro e hg hn
    rw [read_get_error gt (d.SetId sa.Id) config e hg]
    simp [handleNotFoundError, hn, ResourceData.SetId, ResourceData.Id]

/-- C9, amended, at the create scenario (the server creates `sa-1`, the
read-back succeeds: the stored id is `sa-1`) and at a read-back answering
not-found (success, the stored id is empty). -/
theorem C9_create_success_id_witness :
    ((resourceYandexIAMServiceAccountCreate renderOk storeNew ⟨"f-1", cloudOk⟩).d.Id = "sa-1" ∧
      (resourceYandexIAMServiceAccountCreate renderOk storeNew ⟨"f-1", cloudOk⟩).d.Id ≠ "") ∧
    ((resourceYandexIAMServiceAccountCreate renderOk storeNew ⟨"f-1", cloudGone⟩).err = none ∧
      (resourceYandexIAMServiceAccountCreate renderOk storeNew ⟨"f-1", cloudGone⟩).d.Id = "") :=
  ⟨(C9_create_success_id renderOk storeNew ⟨"f-1", cloudOk⟩ "f-1"
      ⟨"op-c", none, .ok (Response.serviceAccount (remoteAccount "sa-1"))⟩
      (remoteAccount "sa-1") rfl rfl rfl rfl (by decide)).1 (by decide)
      (fun e hg => by simp [cloudOk] at hg),
   (C9_create_success_id renderOk storeNew ⟨"f-1", cloudGone⟩ "f-1"
      ⟨"op-c", none, .ok (Response.serviceAccount (remoteAccount "sa-1"))⟩
      (remoteAccount "sa-1") rfl rfl rfl rfl (by decide)).2 errNotFound rfl (by decide)⟩

/-! ## C10: the cluster resolvers and multi-page listings -/

/-- The single-match rule over one list of clusters. -/
theorem findName_cases (r : BaseResolver) (slice : List Cluster) :
    (slice.filter (fun c => c.Name == r.Name) = [] →
      r.findName "cluster" slice none = .error (ResolveError.NotFound "cluster" r.Name)) ∧
    (∀ c, slice.filter (fun c => c.Name == r.Name) = [c] →
      r.findName "cluster" slice none = .ok c.Id) ∧
    (2 ≤ (slice.filter (fun c => c.Name == r.Name)).length →
      r.findName "cluster" slice none = .error (ResolveError.AmbiguousName "cluster" r.Name)) := by
  unfold BaseResolver.findName
  refine ⟨?_, ?_, ?_⟩
  · intro h
    simp only [h]
  · intro c h
    simp only [h]
  · intro h
    cases hm : slice.filter (fun c => c.Name == r.Name) with
    | nil => rw [hm] at h; simp at h
    | cons a t =>
      cases t with
      | nil => rw [hm] at h; simp at h
      | cons b t => rfl

/-- A result computed by `findName` from the answer to the first-page request
is decided on the first page alone. -/
theorem decidedOnFirstPage_of_findName (pageSize : Int) (r : BaseResolver)
    (list : ListClustersRequest → Except Error ListClustersResponse) :
    DecidedOnFirstPage pageSize r list
      { requests := [firstPageRequest pageSize r],
        result := r.findName "cluster" (GetClusters (list (firstPageRequest pageSize r)))
          (errOf (list (firstPageRequest pageSize r))) } := by
  refine ⟨rfl, ?_, ?_⟩
  · intro e h
    simp only [h, GetClusters, errOf, BaseResolver.findName]
  · intro resp h
    simp only [h, GetClusters, errOf]
    exact findName_cases r resp.Clusters

/-- C10, as stated, fails: on a listing of two pages whose clusters `c-1`
(first page) and `c-2` (second page) are both named `db`, the complete
aggregate holds two matches and the rule over it gives ambiguous-name, while
each of the three resolvers sends the first-page request only and resolves
the name to `c-1`. -/
theorem C10_resolvers_do_not_paginate :
    aggregatePages twoPageListing (firstPageRequest 100 resolverDb) 2
      = .ok [⟨"c-1", "db"⟩, ⟨"c-2", "db"⟩] ∧
    resolveOverAggregate resolverDb twoPageListing (firstPageRequest 100 resolverDb) 2
      = .error (ResolveError.AmbiguousName "cluster" "db") ∧
    ((postgreSQLClusterResolver.Run 100 resolverDb mdbTwoPages).requests
        = [⟨"f-1", 100, "", "name = \"db\""⟩] ∧
      (postgreSQLClusterResolver.Run 100 resolverDb mdbTwoPages).result = .ok "c-1") ∧
    ((mongodbClusterResolver.Run 100 resolverDb mdbTwoPages).requests
        = [⟨"f-1", 100, "", "name = \"db\""⟩] ∧
      (mongodbClusterResolver.Run 100 resolverDb mdbTwoPages).result = .ok "c-1") ∧
    ((clickhouseClusterResolver.Run 100 resolverDb mdbTwoPages).requests
        = [⟨"f-1", 100, "", "name = \"db\""⟩] ∧
      (clickhouseClusterResolver.Run 100 resolverDb mdbTwoPages).result = .ok "c-1") :=
  ⟨rfl, rfl, ⟨by decide, rfl⟩, ⟨by decide, rfl⟩, ⟨by decide, rfl⟩⟩

/-- C10, amended: each of the PostgreSQL, MongoDB and ClickHouse cluster
resolvers sends exactly one List request, for the first page, and decides its
outcome over the clusters of that one response: a failed listing is surfaced,
zero name matches on that page give not-found, two or more give
ambiguous-name, exactly one gives that cluster's id; further pages are never
requested. -/
theorem C10_resolvers_decide_on_first_page (DefaultResolverPageSize : Int) (r : BaseResolver)
    (sdk : MDB) :
    DecidedOnFirstPage DefaultResolverPageSize r sdk.PostgreSQL
      (postgreSQLClusterResolver.Run DefaultResolverPageSize r sdk) ∧
    DecidedOnFirstPage DefaultResolverPageSize r sdk.MongoDB
      (mongodbClusterResolver.Run DefaultResolverPageSize r sdk) ∧
    DecidedOnFirstPage DefaultResolverPageSize r sdk.Clickhouse
      (clickhouseClusterResolver.Run DefaultResolverPageSize r sdk) :=
  ⟨decidedOnFirstPage_of_findName DefaultResolverPageSize r sdk.PostgreSQL,
   decidedOnFirstPage_of_findName DefaultResolverPageSize r sdk.MongoDB,
   decidedOnFirstPage_of_findName DefaultResolverPageSize r sdk.Clickhouse⟩

/-- C10, amended, at the two-page listing: the PostgreSQL resolver resolves
`db` to the sole match of the first page, `c-1`. -/
theorem C10_resolvers_decide_on_first_page_witness :
    (postgreSQLClusterResolver.Run 100 resolverDb mdbTwoPages).result = .ok "c-1" :=
  ((C10_resolvers_decide_on_first_page 100 resolverDb mdbTwoPages).1.2.2
    ⟨[⟨"c-1", "db"⟩], "page-2"⟩ rfl).2.1 ⟨"c-1", "db"⟩ rfl

end Yandex
